import Mathlib

/-!
# TL-500 logger: frame decoding, calibration and the poll session

A shallow embedding of `src/tl500.cpp`.

* `unsigned char data[64]` is a `Frame`, a function from the 64 indices to bytes.
* The C type `int` (32 bits) is an integer together with its range; results of
  the decoders are integers that are shown to stay inside that range.
* A `double` that holds a whole number of magnitude at most `2^53` is exact in
  IEEE-754 binary64, and sums and products of such numbers are exact as long as
  the result is again such a number.  `dbl` checks exactly that, so the decoders
  `get_value` and `get_time` return `none` only where the C program leaves the
  range in which its arithmetic is exact or defined.
* `get_measurement` multiplies by decimal constants; it is modelled in exact
  rational arithmetic on those constants.
* `libusb_bulk_transfer` is the boundary to the device: its results come from an
  environment function indexed by the number of the call, and every call, every
  `printf` and every `sleep` is recorded in a chronological trace.
-/

namespace TL500

/-! ## Machine types -/

/-- One `unsigned char`. -/
abbrev Byte := Fin 256

/-- The buffer type `unsigned char data[64]`. -/
abbrev Frame := Fin 64 → Byte

/-- Largest value of a 32-bit `int`. -/
def INT_MAX : Int := 2147483647

/-- Smallest value of a 32-bit `int`. -/
def INT_MIN : Int := -2147483648

/-- A value of the C type `int`. -/
abbrev CInt := { x : Int // INT_MIN ≤ x ∧ x ≤ INT_MAX }

/-- A whole number held in a `double`: exact when its magnitude is at most `2^53`. -/
def dbl (x : Int) : Option Int :=
  if -(9007199254740992 : Int) ≤ x ∧ x ≤ 9007199254740992 then some x else none

/-- The call `pow(b, e)` of `math.h` for a whole base and a natural exponent. -/
def pow (b : Int) (e : Nat) : Option Int :=
  dbl (b ^ e)

/-- Conversion of a whole-valued `double` to `int`, as done by `value += ...` on an
`int` accumulator.  The conversion is undefined when the value does not fit. -/
def double_to_int (x : Int) : Option Int :=
  if INT_MIN ≤ x ∧ x ≤ INT_MAX then some x else none

/-! ## Frame decoding (lines 71-89) -/

/-- Source: `get_sensor`. `return (data[3])*(256)+(data[2]);` -/
def get_sensor (data : Frame) : Int :=
  ((data 3).val : Int) * 256 + ((data 2).val : Int)

/-- One step `value += data[i]*pow(256, e)` of the accumulation loops: the product
and the sum are computed in `double`, the sum is converted back to `int`. -/
def accumulate (data : Frame) (value : Int) (i : Fin 64) (e : Nat) : Option Int := do
  let v ← dbl value
  let p ← pow 256 e
  let m ← dbl (((data i).val : Int) * p)
  let s ← dbl (v + m)
  double_to_int s

/-- Source: `get_value`. `for (int i=4; i<=5; i++) value += data[i]*pow(256, 5-i);` -/
def get_value (data : Frame) : Option Int :=
  [(4 : Fin 64), 5].foldlM (fun value i => accumulate data value i (5 - i.val)) 0

/-- Source: `get_time`. `for (int i=9; i>=6; i--) value += data[i]*pow(256, i-6);` -/
def get_time (data : Frame) : Option Int :=
  [(9 : Fin 64), 8, 7, 6].foldlM (fun value i => accumulate data value i (i.val - 6)) 0

/-! ## Calibration (lines 96-122) -/

/-- Source: `get_measurement`, in exact arithmetic on the decimal constants. -/
def get_measurement (data : Frame) : Option Rat := do
  let v ← get_value data
  let value : Rat := v
  let sensor := get_sensor data
  if sensor < 10000 then
    return value * 0.0078
  else
    if sensor % 2 = 0 then
      return -39.58 + value * 0.01
    else
      return 0.6 + value * 0.03328

/-- Source: `get_unit`. -/
def get_unit (data : Frame) : String :=
  let sensor := get_sensor data
  if sensor > 10000 ∧ sensor % 2 ≠ 0 then
    "%RH"
  else
    "°C"

/-- A frame that is zero except at the listed positions. -/
def frame_of (l : List (Fin 64 × Byte)) : Frame :=
  fun i => ((l.find? (fun p => p.1 = i)).map (fun p => p.2)).getD 0

/-! ## Output (lines 124-159) -/

/-- Source: `enum output_type`. -/
inductive output_type where
  | output_verbose
  | output_csv
  | output_raw
  deriving DecidableEq

/-- An argument handed to `printf`.  An integer or floating argument is `none`
where the decoder that computes it leaves the defined range of C arithmetic.
`date` is the string returned by `get_date()`; the wall clock is not modelled. -/
inductive Arg where
  | int (v : Option Int)
  | double (v : Option Rat)
  | str (s : String)
  | size (n : Nat)
  | date
  deriving DecidableEq

/-- What the program does that can be observed from outside, one entry per call.
A bulk transfer on an OUT endpoint carries the bytes it sends as payload. -/
inductive Event where
  | bulk_transfer (endpoint : Nat) (payload : Option Frame) (length : Nat) (timeout : Nat)
  | printf (fmt : String) (args : List Arg)
  | sleep (seconds : Nat)

/-- The loop `for(int j=0;j<64;j++) printf(fmt, data[j]);` of `print_data`. -/
def hex_dump (fmt : String) (data : Frame) : List Event :=
  (List.finRange 64).map (fun j => Event.printf fmt [Arg.int (some ((data j).val : Int))])

/-- Source: `print_data`, with the global `output_type` passed as an argument. -/
def print_data (ot : output_type) (data : Frame) : List Event :=
  match ot with
  | output_type.output_verbose =>
      [Event.printf "Received data %s " [Arg.date]]
        ++ hex_dump "%02x " data
        ++ [Event.printf "\n" [],
            Event.printf
              "From sensor %d we get a raw value %d. We guess this means %3.2f %s. Time: %d\n"
              [Arg.int (some (get_sensor data)), Arg.int (get_value data),
               Arg.double (get_measurement data), Arg.str (get_unit data),
               Arg.int (get_time data)]]
  | output_type.output_csv =>
      [Event.printf "%d, %d, %3.2f, %s, %d, %s, "
          [Arg.int (some (get_sensor data)), Arg.int (get_value data),
           Arg.double (get_measurement data), Arg.str (get_unit data),
           Arg.int (get_time data), Arg.date]]
        ++ hex_dump "%02x" data
        ++ [Event.printf "\n" []]
  | output_type.output_raw =>
      hex_dump "%02x" data ++ [Event.printf "\n" []]

/-! ## The device session (lines 230-253 of `main`) -/

/-- What one call of `libusb_bulk_transfer` hands back: the status it returns, the
count it stores through `&actual_length`, and the contents of the buffer after
a transfer on an IN endpoint. -/
structure Outcome where
  r : CInt
  actual_length : CInt
  data : Frame

/-- The device and the library: the outcome of the n-th transfer of the session. -/
abbrev Env := Nat → Outcome

/-- The local variables of `main` that the session uses, the number of transfers
issued so far, and the trace of observable calls, oldest first. -/
structure State where
  r : CInt
  actual_length : CInt
  dataUp : Frame
  dataDown : Frame
  calls : Nat
  trace : List Event

/-- Source: `unsigned char ENDPOINT_DOWN = 0x1;` -/
def ENDPOINT_DOWN : Nat := 0x1

/-- Source: `unsigned char ENDPOINT_UP = 0x81;` -/
def ENDPOINT_UP : Nat := 0x81

/-- Conversion of an `int` to `size_t` (64 bits), as the comparison
`actual_length == sizeof(dataUp)` performs it. -/
def to_size_t (x : Int) : Nat :=
  (x % 18446744073709551616).toNat

/-- The library call `libusb_bulk_transfer(handle, endpoint, data, length,
&actual_length, timeout)`.  Bit 7 of the endpoint address gives the direction:
an OUT transfer sends `data` and leaves it unchanged, an IN transfer replaces
it.  Returns the status and the buffer; the state receives `actual_length`. -/
def libusb_bulk_transfer (env : Env) (endpoint : Nat) (data : Frame) (length : Nat)
    (timeout : Nat) (st : State) : CInt × Frame × State :=
  let o := env st.calls
  let dir_in : Bool := decide (128 ≤ endpoint)
  let ev := Event.bulk_transfer endpoint (if dir_in then none else some data) length timeout
  (o.r, if dir_in then o.data else data,
    { st with actual_length := o.actual_length, calls := st.calls + 1, trace := st.trace ++ [ev] })

/-- Source: the `printf` of the else branch of the loop body, with the arguments
`r`, `actual_length` and `sizeof(dataUp)`. -/
def something_went_wrong (r actual_length : CInt) : Event :=
  Event.printf
    "Something went wrong (r == %i, actual_length == %i , sizeof(data) == %lu ).\n"
    [Arg.int (some r.val), Arg.int (some actual_length.val), Arg.size 64]

/-- Source: the body of the loop `for(int i=0; i<10000; i++)` of `main`. -/
def poll_iteration (env : Env) (ot : output_type) (st : State) : State :=
  let w := libusb_bulk_transfer env ENDPOINT_DOWN st.dataDown 64 0 st
  let st1 : State := { w.2.2 with r := w.1, dataDown := w.2.1 }
  let u := libusb_bulk_transfer env ENDPOINT_UP st1.dataUp 64 1000 st1
  let st2 : State := { u.2.2 with r := u.1, dataUp := u.2.1 }
  if st2.r.val = 0 ∧ to_size_t st2.actual_length.val = 64 then
    let st3 : State :=
      if st2.dataUp 0 ≠ 0 ∨ st2.dataUp 1 ≠ 0 then
        { st2 with trace := st2.trace ++ print_data ot st2.dataUp }
      else st2
    { st3 with trace := st3.trace ++ [Event.sleep 1] }
  else
    { st2 with trace := st2.trace ++ [something_went_wrong st2.r st2.actual_length] }

/-- Source: lines 230-253 of `main`, entered once `find_tl500` has returned a
handle: fill `dataDown`, send the frame with first byte 4, then poll 10000 times
with first byte 3.  The state `st` holds whatever the variables contain before. -/
def main_session (env : Env) (ot : output_type) (st : State) : State :=
  let dataDown : Frame :=
    (List.finRange 64).foldl (fun d j => Function.update d j 0) st.dataDown
  let dataDown : Frame := Function.update dataDown 0 4
  let p := libusb_bulk_transfer env ENDPOINT_DOWN dataDown 64 0 { st with dataDown := dataDown }
  let st1 : State := { p.2.2 with dataDown := Function.update p.2.1 0 3 }
  (List.range 10000).foldl (fun s _ => poll_iteration env ot s) st1

/-! ## Observation helpers -/

/-- Whether an event is a call of `libusb_bulk_transfer`. -/
def Event.is_transfer : Event → Bool
  | Event.bulk_transfer _ _ _ _ => true
  | _ => false

/-- The bulk transfers of a trace, in order. -/
def bulk_transfers (t : List Event) : List Event :=
  t.filter Event.is_transfer

/-- A value of type `int` from a literal inside the range. -/
def cint (x : Int) (h : INT_MIN ≤ x ∧ x ≤ INT_MAX) : CInt := ⟨x, h⟩

/-- An environment in which every transfer has the same outcome. -/
def const_env (o : Outcome) : Env := fun _ => o

/-- A state with the given buffers, no transfer issued and an empty trace. -/
def initial_state (dataUp dataDown : Frame) : State :=
  { r := cint 0 (by decide), actual_length := cint 0 (by decide),
    dataUp := dataUp, dataDown := dataDown, calls := 0, trace := [] }

end TL500

namespace TL500

theorem accumulate_eq (data : Frame) (value : Int) (i : Fin 64) (e : Nat)
    (hv : 0 ≤ value) (he : e ≤ 3) (hs : value + ((data i).val : Int) * 256 ^ e ≤ INT_MAX) :
    accumulate data value i e = some (value + ((data i).val : Int) * 256 ^ e) := by
  have hb : ((data i).val : Int) < 256 := by exact_mod_cast (data i).isLt
  have hb0 : (0 : Int) ≤ ((data i).val : Int) := Int.natCast_nonneg _
  have hp : (0 : Int) < 256 ^ e ∧ (256 : Int) ^ e ≤ 16777216 := by
    interval_cases e <;> norm_num
  have hm : 0 ≤ ((data i).val : Int) * 256 ^ e := mul_nonneg hb0 hp.1.le
  simp only [INT_MAX] at hs
  have h1 : dbl value = some value := by
    unfold dbl; rw [if_pos]; constructor <;> omega
  have h2 : pow 256 e = some (256 ^ e) := by
    unfold pow dbl; rw [if_pos]; constructor <;> omega
  have h3 : dbl (((data i).val : Int) * 256 ^ e) = some (((data i).val : Int) * 256 ^ e) := by
    unfold dbl; rw [if_pos]; constructor <;> omega
  have h4 : dbl (value + ((data i).val : Int) * 256 ^ e)
      = some (value + ((data i).val : Int) * 256 ^ e) := by
    unfold dbl; rw [if_pos]; constructor <;> omega
  have h5 : double_to_int (value + ((data i).val : Int) * 256 ^ e)
      = some (value + ((data i).val : Int) * 256 ^ e) := by
    unfold double_to_int INT_MIN INT_MAX; rw [if_pos]; constructor <;> omega
  simp [accumulate, h1, h2, h3, h4, h5]

theorem get_value_eq (data : Frame) :
    get_value data = some (((data 4).val : Int) * 256 + ((data 5).val : Int)) := by
  have h4 : ((data 4).val : Int) < 256 := by exact_mod_cast (data 4).isLt
  have h5 : ((data 5).val : Int) < 256 := by exact_mod_cast (data 5).isLt
  have a1 := accumulate_eq data 0 4 1 (by omega) (by omega) (by simp only [INT_MAX]; omega)
  have a2 := accumulate_eq data (0 + ((data 4).val : Int) * 256 ^ 1) 5 0 (by omega) (by omega)
    (by simp only [INT_MAX]; omega)
  have e1 : 5 - (4 : Fin 64).val = 1 := rfl
  have e2 : 5 - (5 : Fin 64).val = 0 := rfl
  simp only [zero_add, pow_one, pow_zero, mul_one] at a1 a2
  simp only [get_value, List.foldlM, e1, e2, a1]
  simpa using a2

theorem byte_bounds (b : Byte) : (0 : Int) ≤ (b.val : Int) ∧ ((b.val : Int)) ≤ 255 := by
  have h := b.isLt
  constructor <;> omega

theorem get_time_eq (data : Frame) :
    get_time data =
      if (data 9).val < 128 then
        some (((data 6).val : Int) + ((data 7).val : Int) * 256 + ((data 8).val : Int) * 65536
          + ((data 9).val : Int) * 16777216)
      else none := by
  have h6 := byte_bounds (data 6)
  have h7 := byte_bounds (data 7)
  have h8 := byte_bounds (data 8)
  have h9 := byte_bounds (data 9)
  have e9 : (9 : Fin 64).val - 6 = 3 := rfl
  have e8 : (8 : Fin 64).val - 6 = 2 := rfl
  have e7 : (7 : Fin 64).val - 6 = 1 := rfl
  have e6 : (6 : Fin 64).val - 6 = 0 := rfl
  simp only [get_time, List.foldlM, e9, e8, e7, e6]
  split_ifs with h
  · have h9lt : ((data 9).val : Int) < 128 := by exact_mod_cast h
    have a9 := accumulate_eq data 0 9 3 (by omega) (by omega) (by simp only [INT_MAX]; omega)
    have a8 := accumulate_eq data (0 + ((data 9).val : Int) * 256 ^ 3) 8 2 (by omega) (by omega)
      (by simp only [INT_MAX]; omega)
    have a7 := accumulate_eq data
      (0 + ((data 9).val : Int) * 256 ^ 3 + ((data 8).val : Int) * 256 ^ 2) 7 1
      (by omega) (by omega) (by simp only [INT_MAX]; omega)
    have a6 := accumulate_eq data
      (0 + ((data 9).val : Int) * 256 ^ 3 + ((data 8).val : Int) * 256 ^ 2
        + ((data 7).val : Int) * 256 ^ 1) 6 0
      (by omega) (by omega) (by simp only [INT_MAX]; omega)
    simp only [a9, a8, a7, a6, Option.bind_eq_bind, Option.some_bind, pure, Option.some.injEq]
    norm_num
    ring
  · have h9ge : (128 : Int) ≤ ((data 9).val : Int) := by
      have : 128 ≤ (data 9).val := Nat.le_of_not_lt h
      exact_mod_cast this
    have a9 : accumulate data 0 9 3 = none := by
      have d1 : dbl 0 = some 0 := by decide
      have d2 : pow 256 3 = some 16777216 := by decide
      have d3 : dbl (((data 9).val : Int) * 16777216) = some (((data 9).val : Int) * 16777216) := by
        unfold dbl; rw [if_pos]; constructor <;> omega
      have d4 : dbl (0 + ((data 9).val : Int) * 16777216)
          = some (((data 9).val : Int) * 16777216) := by
        rw [zero_add]; exact d3
      have d5 : double_to_int (((data 9).val : Int) * 16777216) = none := by
        unfold double_to_int INT_MIN INT_MAX; rw [if_neg]; omega
      simp [accumulate, d1, d2, d3, d4, d5]
    rw [a9]
    rfl

theorem get_measurement_eq (data : Frame) :
    get_measurement data =
      some (if get_sensor data < 10000 then
              ((((data 4).val : Int) * 256 + ((data 5).val : Int) : Int) : Rat) * 0.0078
            else if get_sensor data % 2 = 0 then
              -39.58 + ((((data 4).val : Int) * 256 + ((data 5).val : Int) : Int) : Rat) * 0.01
            else
              0.6 + ((((data 4).val : Int) * 256 + ((data 5).val : Int) : Int) : Rat) * 0.03328) := by
  simp only [get_measurement, get_value_eq, Option.some_bind, pure]
  split_ifs <;> rfl

theorem get_sensor_bounds (data : Frame) : 0 ≤ get_sensor data ∧ get_sensor data ≤ 65535 := by
  have h2 := byte_bounds (data 2)
  have h3 := byte_bounds (data 3)
  unfold get_sensor
  constructor <;> omega

example : get_value (frame_of [(4, 0x02), (5, 0x00)]) = some 512 := by decide
example : get_time (frame_of [(9, 127), (6, 1)]) = some 2130706433 := by decide

/-! ## Claims about the decoders and the calibration -/

/-- C4: `get_sensor` returns `bytes[3]*256 + bytes[2]`, a value in 0..65535 that no
other byte of the frame influences; with `bytes[2]=0x12`, `bytes[3]=0x00` it is 18. -/
theorem C4_get_sensor_bytes (data : Frame) :
    get_sensor data = ((data 3).val : Int) * 256 + ((data 2).val : Int)
    ∧ 0 ≤ get_sensor data ∧ get_sensor data ≤ 65535
    ∧ (∀ other : Frame, other 2 = data 2 → other 3 = data 3 →
        get_sensor other = get_sensor data)
    ∧ get_sensor (Function.update (Function.update data 2 0x12) 3 0x00) = 18 := by
  refine ⟨rfl, (get_sensor_bounds data).1, (get_sensor_bounds data).2, ?_, ?_⟩
  · intro other h2 h3
    simp only [get_sensor, h2, h3]
  · have h3 : (Function.update (Function.update data 2 0x12) 3 0x00) 3 = 0 := by
      simp
    have h2 : (Function.update (Function.update data 2 0x12) 3 0x00) 2 = 0x12 := by
      simp [Function.update]
    simp only [get_sensor, h2, h3]
    rfl

/-- C5: `get_value` returns exactly `bytes[4]*256 + bytes[5]`, a value in 0..65535:
every `double` product and sum of the accumulation is exact and every conversion
back to `int` is in range; with `bytes[4]=0x02`, `bytes[5]=0x00` it is 512. -/
theorem C5_get_value_bytes (data : Frame) :
    get_value data = some (((data 4).val : Int) * 256 + ((data 5).val : Int))
    ∧ 0 ≤ ((data 4).val : Int) * 256 + ((data 5).val : Int)
    ∧ ((data 4).val : Int) * 256 + ((data 5).val : Int) ≤ 65535
    ∧ get_value (Function.update (Function.update data 4 0x02) 5 0x00) = some 512 := by
  have h4 := byte_bounds (data 4)
  have h5 := byte_bounds (data 5)
  refine ⟨get_value_eq data, by omega, by omega, ?_⟩
  have h4 : (Function.update (Function.update data 4 0x02) 5 0x00) 4 = 0x02 := by
    simp [Function.update]
  have h5 : (Function.update (Function.update data 4 0x02) 5 0x00) 5 = 0 := by
    simp
  rw [get_value_eq, h4, h5]
  rfl

/-- C6, evaluated at a frame whose byte 9 is 128: the counter the claim expects is
2147483648, above the largest `int`, and the conversion of the first partial sum
`128 * pow(256, 3)` to `int` is out of range, so `get_time` has no defined result;
no value of type `int` equals the expected counter. -/
theorem C6_get_time_overflow :
    get_time (frame_of [(9, 128)]) = none
    ∧ ((frame_of [(9, 128)] 6).val : Int) + ((frame_of [(9, 128)] 7).val : Int) * 256
        + ((frame_of [(9, 128)] 8).val : Int) * 65536
        + ((frame_of [(9, 128)] 9).val : Int) * 16777216 = 2147483648
    ∧ INT_MAX < 2147483648
    ∧ double_to_int 2147483648 = none
    ∧ (∀ r : CInt, r.val ≠ 2147483648) := by
  refine ⟨by decide, by decide, by decide, by decide, ?_⟩
  intro r
  have h := r.property
  simp only [INT_MIN, INT_MAX] at h
  omega

/-- C1: with `s = get_sensor` and `v = get_value`, `get_measurement` is `v*0.0078`
when `s < 10000`, `-39.58 + v*0.01` when `s >= 10000` is even and `0.6 + v*0.03328`
when `s >= 10000` is odd; exactly one of the three cases holds for every id.
Sensor 18 with value 512 gives 3.9936, sensor 10002 with value 0 gives -39.58. -/
theorem C1_get_measurement_formulas :
    (∀ data : Frame, ∃ v : Int, get_value data = some v
      ∧ 0 ≤ get_sensor data ∧ get_sensor data ≤ 65535
      ∧ ((get_sensor data < 10000 ∧ get_measurement data = some ((v : Rat) * 0.0078))
         ∨ (10000 ≤ get_sensor data ∧ get_sensor data % 2 = 0
              ∧ get_measurement data = some (-39.58 + (v : Rat) * 0.01))
         ∨ (10000 ≤ get_sensor data ∧ get_sensor data % 2 = 1
              ∧ get_measurement data = some (0.6 + (v : Rat) * 0.03328))))
    ∧ (∀ s : Int,
        (s < 10000 ∨ (10000 ≤ s ∧ s % 2 = 0) ∨ (10000 ≤ s ∧ s % 2 = 1))
        ∧ ¬ (s < 10000 ∧ (10000 ≤ s ∧ s % 2 = 0))
        ∧ ¬ (s < 10000 ∧ (10000 ≤ s ∧ s % 2 = 1))
        ∧ ¬ ((10000 ≤ s ∧ s % 2 = 0) ∧ (10000 ≤ s ∧ s % 2 = 1)))
    ∧ (get_sensor (frame_of [(2, 0x12), (4, 0x02)]) = 18
        ∧ get_value (frame_of [(2, 0x12), (4, 0x02)]) = some 512
        ∧ get_measurement (frame_of [(2, 0x12), (4, 0x02)]) = some 3.9936)
    ∧ (get_sensor (frame_of [(2, 0x12), (3, 0x27)]) = 10002
        ∧ get_value (frame_of [(2, 0x12), (3, 0x27)]) = some 0
        ∧ get_measurement (frame_of [(2, 0x12), (3, 0x27)]) = some (-39.58)) := by
  refine ⟨?_, ?_, ?_, ?_⟩
  · intro data
    refine ⟨_, get_value_eq data, (get_sensor_bounds data).1, (get_sensor_bounds data).2, ?_⟩
    rw [get_measurement_eq]
    by_cases h1 : get_sensor data < 10000
    · left
      exact ⟨h1, by rw [if_pos h1]⟩
    · by_cases h2 : get_sensor data % 2 = 0
      · right; left
        exact ⟨by omega, h2, by rw [if_neg h1, if_pos h2]⟩
      · right; right
        exact ⟨by omega, by omega, by rw [if_neg h1, if_neg h2]⟩
  · intro s
    refine ⟨?_, ?_, ?_, ?_⟩ <;> omega
  · refine ⟨by decide, by decide, ?_⟩
    rw [get_measurement_eq]
    have hs : get_sensor (frame_of [(2, 0x12), (4, 0x02)]) = 18 := by decide
    have h4 : ((frame_of [(2, 0x12), (4, 0x02)] 4).val : Int) = 2 := by decide
    have h5 : ((frame_of [(2, 0x12), (4, 0x02)] 5).val : Int) = 0 := by decide
    rw [hs, h4, h5]
    norm_num
  · refine ⟨by decide, by decide, ?_⟩
    rw [get_measurement_eq]
    have hs : get_sensor (frame_of [(2, 0x12), (3, 0x27)]) = 10002 := by decide
    have h4 : ((frame_of [(2, 0x12), (3, 0x27)] 4).val : Int) = 0 := by decide
    have h5 : ((frame_of [(2, 0x12), (3, 0x27)] 5).val : Int) = 0 := by decide
    rw [hs, h4, h5]
    norm_num

theorem get_unit_eq (data : Frame) :
    get_unit data = if 10000 ≤ get_sensor data ∧ get_sensor data % 2 = 1 then "%RH" else "°C" := by
  unfold get_unit
  by_cases h : get_sensor data > 10000 ∧ get_sensor data % 2 ≠ 0
  · have h1 : 10000 ≤ get_sensor data ∧ get_sensor data % 2 = 1 := by omega
    simp only [if_pos h, if_pos h1]
  · have h1 : ¬ (10000 ≤ get_sensor data ∧ get_sensor data % 2 = 1) := by omega
    simp only [if_neg h, if_neg h1]

/-- C2: the unit label belongs to the calibration branch taken.  `get_unit` is
"%RH" exactly when `get_measurement` is `0.6 + v*0.03328` (id at least 10000 and
odd) and "°C" exactly when it is one of the two temperature formulas; the strict
test of `get_unit` and the split of `get_measurement` select the same ids, and a
frame with id 10000 has measurement `-39.58 + v*0.01` and unit "°C". -/
theorem C2_unit_matches_branch (data : Frame) :
    ∃ v : Int, get_value data = some v
      ∧ (get_unit data = "%RH" ↔ get_measurement data = some (0.6 + (v : Rat) * 0.03328))
      ∧ (get_unit data = "°C" ↔
          (get_measurement data = some ((v : Rat) * 0.0078)
            ∨ get_measurement data = some (-39.58 + (v : Rat) * 0.01)))
      ∧ (get_unit data = "%RH" ↔ (10000 ≤ get_sensor data ∧ get_sensor data % 2 = 1))
      ∧ ((get_sensor data > 10000 ∧ get_sensor data % 2 ≠ 0)
          ↔ (10000 ≤ get_sensor data ∧ get_sensor data % 2 ≠ 0))
      ∧ get_sensor (Function.update (Function.update data 2 0x10) 3 0x27) = 10000
      ∧ get_unit (Function.update (Function.update data 2 0x10) 3 0x27) = "°C"
      ∧ get_measurement (Function.update (Function.update data 2 0x10) 3 0x27)
          = some (-39.58 + (v : Rat) * 0.01) := by
  have h4 := byte_bounds (data 4)
  have h5 := byte_bounds (data 5)
  have hv : (0 : Rat) ≤ ((((data 4).val : Int) * 256 + ((data 5).val : Int) : Int) : Rat) := by
    have : (0 : Int) ≤ ((data 4).val : Int) * 256 + ((data 5).val : Int) := by omega
    exact_mod_cast this
  have hne : ("°C" : String) ≠ "%RH" := by decide
  have hs : get_sensor (Function.update (Function.update data 2 0x10) 3 0x27) = 10000 := by
    have h3 : (Function.update (Function.update data 2 0x10) 3 0x27) 3 = 0x27 := by
      simp
    have h2 : (Function.update (Function.update data 2 0x10) 3 0x27) 2 = 0x10 := by
      simp [Function.update]
    simp only [get_sensor, h2, h3]
    rfl
  have hb4 : (Function.update (Function.update data 2 0x10) 3 0x27) 4 = data 4 := by
    simp [Function.update]
  have hb5 : (Function.update (Function.update data 2 0x10) 3 0x27) 5 = data 5 := by
    simp [Function.update]
  refine ⟨_, get_value_eq data, ?_, ?_, ?_, ?_, hs, ?_, ?_⟩
  · rw [get_unit_eq, get_measurement_eq]
    by_cases h1 : get_sensor data < 10000
    · have hc : ¬ (10000 ≤ get_sensor data ∧ get_sensor data % 2 = 1) := by omega
      rw [if_neg hc, if_pos h1]
      constructor
      · intro h; exact absurd h hne
      · intro h
        exfalso
        have h' := Option.some.inj h
        norm_num at h'
        linarith
    · by_cases h2 : get_sensor data % 2 = 0
      · have hc : ¬ (10000 ≤ get_sensor data ∧ get_sensor data % 2 = 1) := by omega
        rw [if_neg hc, if_neg h1, if_pos h2]
        constructor
        · intro h; exact absurd h hne
        · intro h
          exfalso
          have h' := Option.some.inj h
          norm_num at h'
          linarith
      · have hc : 10000 ≤ get_sensor data ∧ get_sensor data % 2 = 1 := by omega
        rw [if_pos hc, if_neg h1, if_neg h2]
        simp
  · rw [get_unit_eq, get_measurement_eq]
    by_cases h1 : get_sensor data < 10000
    · have hc : ¬ (10000 ≤ get_sensor data ∧ get_sensor data % 2 = 1) := by omega
      rw [if_neg hc, if_pos h1]
      simp
    · by_cases h2 : get_sensor data % 2 = 0
      · have hc : ¬ (10000 ≤ get_sensor data ∧ get_sensor data % 2 = 1) := by omega
        rw [if_neg hc, if_neg h1, if_pos h2]
        simp
      · have hc : 10000 ≤ get_sensor data ∧ get_sensor data % 2 = 1 := by omega
        rw [if_pos hc, if_neg h1, if_neg h2]
        constructor
        · intro h; exact absurd h.symm hne
        · intro h
          exfalso
          rcases h with h | h
          · have h' := Option.some.inj h
            norm_num at h'
            linarith
          · have h' := Option.some.inj h
            norm_num at h'
            linarith
  · rw [get_unit_eq]
    by_cases hc : 10000 ≤ get_sensor data ∧ get_sensor data % 2 = 1
    · simp [hc]
    · rw [if_neg hc]
      constructor
      · intro h; exact absurd h hne
      · intro h; exact absurd h hc
  · have := get_sensor_bounds data
    constructor <;> intro h <;> omega
  · rw [get_unit_eq, hs]
    decide
  · rw [get_measurement_eq, hs, hb4, hb5]
    norm_num

/-- C9, refuted as written: for sensor 10001 and raw value 100 the measurement is
not 4.228. -/
theorem C9_counterexample :
    get_sensor (frame_of [(2, 0x11), (3, 0x27), (4, 0x00), (5, 0x64)]) = 10001
    ∧ get_value (frame_of [(2, 0x11), (3, 0x27), (4, 0x00), (5, 0x64)]) = some 100
    ∧ get_measurement (frame_of [(2, 0x11), (3, 0x27), (4, 0x00), (5, 0x64)]) ≠ some 4.228 := by
  refine ⟨by decide, by decide, ?_⟩
  rw [get_measurement_eq]
  have hs : get_sensor (frame_of [(2, 0x11), (3, 0x27), (4, 0x00), (5, 0x64)]) = 10001 := by
    decide
  have h4 : ((frame_of [(2, 0x11), (3, 0x27), (4, 0x00), (5, 0x64)] 4).val : Int) = 0 := by
    decide
  have h5 : ((frame_of [(2, 0x11), (3, 0x27), (4, 0x00), (5, 0x64)] 5).val : Int) = 100 := by
    decide
  rw [hs, h4, h5]
  norm_num

/-- C9, amended: for sensor 10001 and raw value 100 (bytes 2..5 = 0x11, 0x27, 0x00,
0x64) the measurement is `0.6 + 100*0.03328 = 3.928` and the unit is "%RH". -/
theorem C9_humidity_example :
    get_sensor (frame_of [(2, 0x11), (3, 0x27), (4, 0x00), (5, 0x64)]) = 10001
    ∧ get_value (frame_of [(2, 0x11), (3, 0x27), (4, 0x00), (5, 0x64)]) = some 100
    ∧ get_measurement (frame_of [(2, 0x11), (3, 0x27), (4, 0x00), (5, 0x64)])
        = some (0.6 + 100 * 0.03328)
    ∧ (0.6 + 100 * 0.03328 : Rat) = 3.928
    ∧ get_unit (frame_of [(2, 0x11), (3, 0x27), (4, 0x00), (5, 0x64)]) = "%RH" := by
  refine ⟨by decide, by decide, ?_, by norm_num, by decide⟩
  rw [get_measurement_eq]
  have hs : get_sensor (frame_of [(2, 0x11), (3, 0x27), (4, 0x00), (5, 0x64)]) = 10001 := by
    decide
  have h4 : ((frame_of [(2, 0x11), (3, 0x27), (4, 0x00), (5, 0x64)] 4).val : Int) = 0 := by
    decide
  have h5 : ((frame_of [(2, 0x11), (3, 0x27), (4, 0x00), (5, 0x64)] 5).val : Int) = 100 := by
    decide
  rw [hs, h4, h5]
  norm_num

/-! ## The poll iteration -/

theorem to_size_t_eq (x : CInt) : to_size_t x.val = 64 ↔ x.val = 64 := by
  have h := x.property
  simp only [INT_MIN, INT_MAX] at h
  unfold to_size_t
  omega

theorem poll_iteration_eq (env : Env) (ot : output_type) (st : State) :
    poll_iteration env ot st =
      { r := (env (st.calls + 1)).r,
        actual_length := (env (st.calls + 1)).actual_length,
        dataUp := (env (st.calls + 1)).data,
        dataDown := st.dataDown,
        calls := st.calls + 2,
        trace := st.trace
          ++ [Event.bulk_transfer 0x1 (some st.dataDown) 64 0,
              Event.bulk_transfer 0x81 none 64 1000]
          ++ (if (env (st.calls + 1)).r.val = 0 ∧ (env (st.calls + 1)).actual_length.val = 64 then
                (if (env (st.calls + 1)).data 0 ≠ 0 ∨ (env (st.calls + 1)).data 1 ≠ 0 then
                  print_data ot (env (st.calls + 1)).data else [])
                ++ [Event.sleep 1]
              else
                [something_went_wrong (env (st.calls + 1)).r
                  (env (st.calls + 1)).actual_length]) } := by
  simp only [poll_iteration, libusb_bulk_transfer, ENDPOINT_DOWN, ENDPOINT_UP, to_size_t_eq]
  by_cases hok : (env (st.calls + 1)).r.val = 0 ∧ (env (st.calls + 1)).actual_length.val = 64
  · by_cases hs : (env (st.calls + 1)).data 0 ≠ 0 ∨ (env (st.calls + 1)).data 1 ≠ 0
    · simp [hok, hs]
    · simp [hok, hs]
  · simp [hok]

theorem print_data_ne_nil (ot : output_type) (data : Frame) : print_data ot data ≠ [] := by
  cases ot <;> simp [print_data]

theorem something_went_wrong_not_mem_print_data (ot : output_type) (data : Frame)
    (r actual_length : CInt) :
    something_went_wrong r actual_length ∉ print_data ot data := by
  cases ot <;> simp [print_data, hex_dump, something_went_wrong]

/-- C7: the read of an iteration counts as a success exactly when its status is 0
and its `actual_length` is 64.  Otherwise the iteration adds to the trace the two
transfers and one error line carrying the status, the count and the size 64, and
nothing from the receive buffer; on success no error line is written.  The
outcome of the request write that precedes the read changes nothing. -/
theorem C7_read_classification (env : Env) (ot : output_type) (st : State) :
    (¬ ((env (st.calls + 1)).r.val = 0 ∧ (env (st.calls + 1)).actual_length.val = 64) →
        (poll_iteration env ot st).trace =
          st.trace ++ [Event.bulk_transfer 0x1 (some st.dataDown) 64 0,
                       Event.bulk_transfer 0x81 none 64 1000,
                       Event.printf
  "Something went wrong (r == %i, actual_length == %i , sizeof(data) == %lu ).\n"
                         [Arg.int (some (env (st.calls + 1)).r.val),
                          Arg.int (some (env (st.calls + 1)).actual_length.val),
                          Arg.size 64]])
    ∧ (((env (st.calls + 1)).r.val = 0 ∧ (env (st.calls + 1)).actual_length.val = 64) →
        ∃ out, (poll_iteration env ot st).trace =
            st.trace ++ [Event.bulk_transfer 0x1 (some st.dataDown) 64 0,
                         Event.bulk_transfer 0x81 none 64 1000] ++ out ++ [Event.sleep 1]
          ∧ (out = [] ∨ out = print_data ot (env (st.calls + 1)).data)
          ∧ something_went_wrong (env (st.calls + 1)).r (env (st.calls + 1)).actual_length
              ∉ out ++ [Event.sleep 1])
    ∧ (∀ o : Outcome,
        poll_iteration (Function.update env st.calls o) ot st = poll_iteration env ot st) := by
  refine ⟨?_, ?_, ?_⟩
  · intro hbad
    rw [poll_iteration_eq]
    simp [hbad, something_went_wrong]
  · intro hok
    rw [poll_iteration_eq]
    simp only [if_pos hok]
    refine ⟨if (env (st.calls + 1)).data 0 ≠ 0 ∨ (env (st.calls + 1)).data 1 ≠ 0 then
        print_data ot (env (st.calls + 1)).data else [], by simp only [List.append_assoc], ?_, ?_⟩
    · by_cases hs : (env (st.calls + 1)).data 0 ≠ 0 ∨ (env (st.calls + 1)).data 1 ≠ 0
      · right; rw [if_pos hs]
      · left; rw [if_neg hs]
    · intro hmem
      rcases List.mem_append.1 hmem with h | h
      · by_cases hs : (env (st.calls + 1)).data 0 ≠ 0 ∨ (env (st.calls + 1)).data 1 ≠ 0
        · rw [if_pos hs] at h
          exact something_went_wrong_not_mem_print_data _ _ _ _ h
        · rw [if_neg hs] at h
          simp at h
      · simp [something_went_wrong] at h
  · intro o
    have hne : st.calls + 1 ≠ st.calls := by omega
    rw [poll_iteration_eq, poll_iteration_eq, Function.update_noteq hne]

/-- C7 at a concrete input: a read that returns status 0 but only 10 bytes, after a
stale frame with a non-zero first byte was left in the buffer, produces the two
transfers and the error line, and nothing else. -/
theorem C7_read_classification_witness :
    (poll_iteration
        (const_env { r := cint 0 (by decide), actual_length := cint 10 (by decide),
                     data := frame_of [(0, 1)] })
        output_type.output_verbose
        (initial_state (frame_of [(0, 1)]) (frame_of [(0, 3)]))).trace
      = [Event.bulk_transfer 0x1 (some (frame_of [(0, 3)])) 64 0,
         Event.bulk_transfer 0x81 none 64 1000,
         Event.printf
  "Something went wrong (r == %i, actual_length == %i , sizeof(data) == %lu ).\n"
           [Arg.int (some 0), Arg.int (some 10), Arg.size 64]] := by
  have h := (C7_read_classification
    (const_env { r := cint 0 (by decide), actual_length := cint 10 (by decide),
                 data := frame_of [(0, 1)] })
    output_type.output_verbose
    (initial_state (frame_of [(0, 1)]) (frame_of [(0, 3)]))).1
    (by simp [const_env, cint])
  simpa [const_env, cint, initial_state] using h

/-- C3, refuted as written: in the raw output format a frame with a non-zero
first byte, received by a successful full-length read, is printed as a hex dump
only; no `printf` of the iteration carries its measurement and its unit. -/
theorem C3_counterexample :
    (frame_of [(0, 1)] 0 ≠ 0 ∨ frame_of [(0, 1)] 1 ≠ 0)
    ∧ (poll_iteration
        (const_env { r := cint 0 (by decide), actual_length := cint 64 (by decide),
                     data := frame_of [(0, 1)] })
        output_type.output_raw
        (initial_state (frame_of []) (frame_of [(0, 3)]))).trace
      = [Event.bulk_transfer 0x1 (some (frame_of [(0, 3)])) 64 0,
         Event.bulk_transfer 0x81 none 64 1000]
        ++ hex_dump "%02x" (frame_of [(0, 1)]) ++ [Event.printf "\n" [], Event.sleep 1]
    ∧ ¬ ∃ fmt args,
        Event.printf fmt args ∈ (poll_iteration
          (const_env { r := cint 0 (by decide), actual_length := cint 64 (by decide),
                       data := frame_of [(0, 1)] })
          output_type.output_raw
          (initial_state (frame_of []) (frame_of [(0, 3)]))).trace
        ∧ Arg.double (get_measurement (frame_of [(0, 1)])) ∈ args
        ∧ Arg.str (get_unit (frame_of [(0, 1)])) ∈ args := by
  have h0 : frame_of [(0, 1)] 0 ≠ 0 := by decide
  have ht : (poll_iteration
        (const_env { r := cint 0 (by decide), actual_length := cint 64 (by decide),
                     data := frame_of [(0, 1)] })
        output_type.output_raw
        (initial_state (frame_of []) (frame_of [(0, 3)]))).trace
      = [Event.bulk_transfer 0x1 (some (frame_of [(0, 3)])) 64 0,
         Event.bulk_transfer 0x81 none 64 1000]
        ++ hex_dump "%02x" (frame_of [(0, 1)]) ++ [Event.printf "\n" [], Event.sleep 1] := by
    rw [poll_iteration_eq]
    simp [const_env, cint, initial_state, h0, print_data]
  refine ⟨Or.inl h0, ht, ?_⟩
  rw [ht]
  rintro ⟨fmt, args, hmem, hd, -⟩
  simp only [List.mem_append, List.mem_cons, List.mem_singleton, hex_dump, List.mem_map,
    List.not_mem_nil, or_false, false_or, reduceCtorEq, Event.printf.injEq] at hmem
  rcases hmem with ⟨j, -, -, hj⟩ | ⟨-, hj⟩
  · rw [← hj] at hd
    simp at hd
  · rw [hj] at hd
    simp at hd

/-- C3, amended: after a successful full-length read the iteration skips the frame
(its trace gains only the two transfers and the sleep) exactly when bytes 0 and 1
are both zero; any other frame is handed to `print_data` and printed.  In the
verbose and csv formats one `printf` carries the decoded sensor id
`bytes[3]*256 + bytes[2]`, raw value `bytes[4]*256 + bytes[5]`, measurement and
unit, and, when `bytes[9] < 128`, the elapsed time
`bytes[6] + bytes[7]*256 + bytes[8]*65536 + bytes[9]*16777216`; in the raw format
the output is the hex dump alone. -/
theorem C3_sentinel_filter (env : Env) (ot : output_type) (st : State)
    (hok : (env (st.calls + 1)).r.val = 0 ∧ (env (st.calls + 1)).actual_length.val = 64) :
    ((poll_iteration env ot st).trace =
        st.trace ++ [Event.bulk_transfer 0x1 (some st.dataDown) 64 0,
                     Event.bulk_transfer 0x81 none 64 1000, Event.sleep 1]
      ↔ ((env (st.calls + 1)).data 0 = 0 ∧ (env (st.calls + 1)).data 1 = 0))
    ∧ (((env (st.calls + 1)).data 0 ≠ 0 ∨ (env (st.calls + 1)).data 1 ≠ 0) →
        (poll_iteration env ot st).trace =
          st.trace ++ [Event.bulk_transfer 0x1 (some st.dataDown) 64 0,
                       Event.bulk_transfer 0x81 none 64 1000]
            ++ print_data ot (env (st.calls + 1)).data ++ [Event.sleep 1])
    ∧ print_data ot (env (st.calls + 1)).data ≠ []
    ∧ (ot ≠ output_type.output_raw →
        ∃ fmt args, Event.printf fmt args ∈ print_data ot (env (st.calls + 1)).data
          ∧ Arg.int (some (((env (st.calls + 1)).data 3).val * 256
              + ((env (st.calls + 1)).data 2).val)) ∈ args
          ∧ Arg.int (some (((env (st.calls + 1)).data 4).val * 256
              + ((env (st.calls + 1)).data 5).val)) ∈ args
          ∧ (∃ m : Rat, get_measurement (env (st.calls + 1)).data = some m
              ∧ Arg.double (some m) ∈ args)
          ∧ Arg.str (get_unit (env (st.calls + 1)).data) ∈ args
          ∧ (((env (st.calls + 1)).data 9).val < 128 →
              Arg.int (some (((env (st.calls + 1)).data 6).val
                + ((env (st.calls + 1)).data 7).val * 256
                + ((env (st.calls + 1)).data 8).val * 65536
                + ((env (st.calls + 1)).data 9).val * 16777216)) ∈ args))
    ∧ (ot = output_type.output_raw →
        print_data ot (env (st.calls + 1)).data
          = hex_dump "%02x" (env (st.calls + 1)).data ++ [Event.printf "\n" []]) := by
  refine ⟨?_, ?_, print_data_ne_nil _ _, ?_, ?_⟩
  · rw [poll_iteration_eq]
    simp only [if_pos hok]
    by_cases hs : (env (st.calls + 1)).data 0 ≠ 0 ∨ (env (st.calls + 1)).data 1 ≠ 0
    · rw [if_pos hs]
      constructor
      · intro h
        exfalso
        have hl := congrArg List.length h
        simp only [List.length_append, List.length_cons, List.length_nil] at hl
        have h0 : (print_data ot (env (st.calls + 1)).data).length = 0 := by omega
        exact print_data_ne_nil _ _ (List.length_eq_zero.1 h0)
      · intro h
        exfalso
        rcases hs with hs | hs
        · exact hs h.1
        · exact hs h.2
    · rw [if_neg hs]
      constructor
      · intro _
        constructor
        · by_contra h0; exact hs (Or.inl h0)
        · by_contra h1; exact hs (Or.inr h1)
      · intro _
        simp
  · intro hs
    rw [poll_iteration_eq]
    simp only [if_pos hok, if_pos hs, List.append_assoc]
  · intro hraw
    obtain ⟨m, hm⟩ : ∃ m : Rat, get_measurement (env (st.calls + 1)).data = some m :=
      ⟨_, get_measurement_eq _⟩
    have hsens : get_sensor (env (st.calls + 1)).data
        = ((env (st.calls + 1)).data 3).val * 256 + ((env (st.calls + 1)).data 2).val := rfl
    cases ot with
    | output_verbose =>
        refine ⟨"From sensor %d we get a raw value %d. We guess this means %3.2f %s. Time: %d\n",
          [Arg.int (some (get_sensor (env (st.calls + 1)).data)),
           Arg.int (get_value (env (st.calls + 1)).data),
           Arg.double (get_measurement (env (st.calls + 1)).data),
           Arg.str (get_unit (env (st.calls + 1)).data),
           Arg.int (get_time (env (st.calls + 1)).data)],
          by simp [print_data], ?_, ?_, ⟨m, hm, ?_⟩, by simp, ?_⟩
        · rw [hsens]; simp
        · rw [get_value_eq]; simp
        · rw [hm]; simp
        · intro h9
          rw [get_time_eq, if_pos h9]
          simp
    | output_csv =>
        refine ⟨"%d, %d, %3.2f, %s, %d, %s, ",
          [Arg.int (some (get_sensor (env (st.calls + 1)).data)),
           Arg.int (get_value (env (st.calls + 1)).data),
           Arg.double (get_measurement (env (st.calls + 1)).data),
           Arg.str (get_unit (env (st.calls + 1)).data),
           Arg.int (get_time (env (st.calls + 1)).data), Arg.date],
          by simp [print_data], ?_, ?_, ⟨m, hm, ?_⟩, by simp, ?_⟩
        · rw [hsens]; simp
        · rw [get_value_eq]; simp
        · rw [hm]; simp
        · intro h9
          rw [get_time_eq, if_pos h9]
          simp
    | output_raw => exact absurd rfl hraw
  · intro hraw
    rw [hraw]
    rfl

/-- C3 at a concrete input: a successful read of a frame with first byte 1, in the
verbose format, is followed by the output of `print_data` and the sleep. -/
theorem C3_sentinel_filter_witness :
    (poll_iteration
        (const_env { r := cint 0 (by decide), actual_length := cint 64 (by decide),
                     data := frame_of [(0, 1)] })
        output_type.output_verbose
        (initial_state (frame_of []) (frame_of [(0, 3)]))).trace
      = [Event.bulk_transfer 0x1 (some (frame_of [(0, 3)])) 64 0,
         Event.bulk_transfer 0x81 none 64 1000]
        ++ print_data output_type.output_verbose (frame_of [(0, 1)]) ++ [Event.sleep 1] := by
  have h := (C3_sentinel_filter
    (const_env { r := cint 0 (by decide), actual_length := cint 64 (by decide),
                 data := frame_of [(0, 1)] })
    output_type.output_verbose
    (initial_state (frame_of []) (frame_of [(0, 3)]))
    (by simp [const_env, cint])).2.1 (Or.inl (by decide))
  simpa [const_env, cint, initial_state] using h

/-! ## The session: priming and the poll loop -/

theorem bulk_transfers_append (a b : List Event) :
    bulk_transfers (a ++ b) = bulk_transfers a ++ bulk_transfers b := by
  simp [bulk_transfers]

theorem bulk_transfers_print_data (ot : output_type) (data : Frame) :
    bulk_transfers (print_data ot data) = [] := by
  cases ot <;>
    simp [bulk_transfers, print_data, hex_dump, List.filter_eq_nil_iff, Event.is_transfer]

/-- The events of an iteration that follow its two transfers. -/
theorem poll_iteration_block (env : Env) (ot : output_type) (st : State) :
    ∃ out : List Event, bulk_transfers out = []
      ∧ (poll_iteration env ot st).trace =
          st.trace ++ ([Event.bulk_transfer 0x1 (some st.dataDown) 64 0,
                        Event.bulk_transfer 0x81 none 64 1000] ++ out)
      ∧ (poll_iteration env ot st).dataDown = st.dataDown
      ∧ (poll_iteration env ot st).calls = st.calls + 2 := by
  rw [poll_iteration_eq]
  refine ⟨_, ?_, List.append_assoc _ _ _, rfl, rfl⟩
  by_cases hok : (env (st.calls + 1)).r.val = 0 ∧ (env (st.calls + 1)).actual_length.val = 64
  · rw [if_pos hok, bulk_transfers_append]
    by_cases hs : (env (st.calls + 1)).data 0 ≠ 0 ∨ (env (st.calls + 1)).data 1 ≠ 0
    · rw [if_pos hs, bulk_transfers_print_data]
      rfl
    · rw [if_neg hs]
      rfl
  · rw [if_neg hok]
    rfl

/-- After `n` iterations the trace has grown by `n` blocks, each made of the request
write, the read, and events that are no transfers. -/
theorem poll_loop_blocks (env : Env) (ot : output_type) (st : State) (n : Nat) :
    ∃ outs : List (List Event), outs.length = n
      ∧ (∀ out ∈ outs, bulk_transfers out = [])
      ∧ ((List.range n).foldl (fun s _ => poll_iteration env ot s) st).trace =
          st.trace ++ (outs.map (fun out =>
            [Event.bulk_transfer 0x1 (some st.dataDown) 64 0,
             Event.bulk_transfer 0x81 none 64 1000] ++ out)).flatten
      ∧ ((List.range n).foldl (fun s _ => poll_iteration env ot s) st).dataDown = st.dataDown
      ∧ ((List.range n).foldl (fun s _ => poll_iteration env ot s) st).calls
          = st.calls + 2 * n := by
  induction n with
  | zero => exact ⟨[], rfl, by simp, by simp, rfl, rfl⟩
  | succ k ih =>
    obtain ⟨outs, hlen, hfree, htrace, hdown, hcalls⟩ := ih
    obtain ⟨out, hout, ht, hd, hc⟩ :=
      poll_iteration_block env ot ((List.range k).foldl (fun s _ => poll_iteration env ot s) st)
    rw [List.range_succ, List.foldl_append]
    simp only [List.foldl_cons, List.foldl_nil]
    refine ⟨outs ++ [out], by simp [hlen], ?_, ?_, ?_, ?_⟩
    · intro o ho
      rcases List.mem_append.1 ho with h | h
      · exact hfree o h
      · rw [List.mem_singleton.1 h]; exact hout
    · rw [ht, htrace, hdown]
      simp [List.append_assoc]
    · rw [hd, hdown]
    · rw [hc, hcalls]; omega

theorem bulk_transfers_blocks (w u : Event) (hw : w.is_transfer = true)
    (hu : u.is_transfer = true) (outs : List (List Event))
    (hfree : ∀ out ∈ outs, bulk_transfers out = []) :
    bulk_transfers (outs.map (fun out => [w, u] ++ out)).flatten
      = (List.replicate outs.length [w, u]).flatten := by
  induction outs with
  | nil => rfl
  | cons o os ih =>
    have ho : bulk_transfers o = [] := hfree o (List.mem_cons_self _ _)
    have hos : ∀ out ∈ os, bulk_transfers out = [] :=
      fun out h => hfree out (List.mem_cons_of_mem _ h)
    simp only [List.map_cons, List.flatten_cons, List.length_cons, List.replicate_succ,
      bulk_transfers_append, ih hos, ho, List.append_nil]
    simp [bulk_transfers, hw, hu]

theorem zero_fill (l : List (Fin 64)) (d : Frame) (i : Fin 64) :
    (l.foldl (fun d j => Function.update d j 0) d) i = if i ∈ l then 0 else d i := by
  induction l generalizing d with
  | nil => simp
  | cons a t ih =>
    rw [List.foldl_cons, ih]
    by_cases hi : i ∈ t
    · simp [hi]
    · by_cases ha : i = a
      · subst ha
        simp [hi]
      · simp [hi, ha, Function.update_noteq ha]

/-- The session: the prime write with the frame `4, 0, ..., 0`, then the loop on
the state whose `dataDown` is `3, 0, ..., 0`. -/
theorem main_session_eq (env : Env) (ot : output_type) (st : State) :
    main_session env ot st =
      (List.range 10000).foldl (fun s _ => poll_iteration env ot s)
        { r := st.r,
          actual_length := (env st.calls).actual_length,
          dataUp := st.dataUp,
          dataDown := fun j => if j = 0 then 3 else 0,
          calls := st.calls + 1,
          trace := st.trace ++
            [Event.bulk_transfer 0x1 (some (fun j => if j = 0 then 4 else 0)) 64 0] } := by
  have hz : (List.finRange 64).foldl (fun d j => Function.update d j 0) st.dataDown
      = fun _ => 0 := by
    funext i
    rw [zero_fill]
    simp [List.mem_finRange]
  have h4 : Function.update (fun _ : Fin 64 => (0 : Byte)) 0 4
      = fun j => if j = 0 then 4 else 0 := by
    funext j
    by_cases hj : j = 0
    · subst hj
      simp
    · simp [hj, Function.update_noteq hj]
  have h3 : Function.update (fun j : Fin 64 => if j = 0 then (4 : Byte) else 0) 0 3
      = fun j => if j = 0 then 3 else 0 := by
    funext j
    by_cases hj : j = 0
    · subst hj
      simp
    · simp [hj, Function.update_noteq hj]
  simp only [main_session, libusb_bulk_transfer, ENDPOINT_DOWN, hz, h4]
  simp [h3]

/-- C8: whatever the transfers return, the session issues the prime write and then
runs exactly 10000 iterations: after the prime write the trace consists of 10000
blocks, each one request write followed by one read followed by events that are
no transfers, and the session ends after `1 + 2 * 10000` transfers. -/
theorem C8_poll_loop_iterations (env : Env) (ot : output_type) (st : State) :
    (main_session env ot st).calls = st.calls + 1 + 2 * 10000
    ∧ ∃ outs : List (List Event), outs.length = 10000
        ∧ (∀ out ∈ outs, bulk_transfers out = [])
        ∧ (main_session env ot st).trace =
            st.trace ++ [Event.bulk_transfer 0x1 (some (fun j => if j = 0 then 4 else 0)) 64 0]
              ++ (outs.map (fun out =>
                    [Event.bulk_transfer 0x1 (some (fun j => if j = 0 then 3 else 0)) 64 0,
                     Event.bulk_transfer 0x81 none 64 1000] ++ out)).flatten := by
  rw [main_session_eq]
  obtain ⟨outs, hlen, hfree, htrace, -, hcalls⟩ := poll_loop_blocks env ot
    { r := st.r,
      actual_length := (env st.calls).actual_length,
      dataUp := st.dataUp,
      dataDown := fun j => if j = 0 then 3 else 0,
      calls := st.calls + 1,
      trace := st.trace ++
        [Event.bulk_transfer 0x1 (some (fun j => if j = 0 then 4 else 0)) 64 0] } 10000
  exact ⟨hcalls, outs, hlen, hfree, htrace⟩

/-- C10: the first event of the session is the write, on endpoint 0x01 with
timeout 0, of the 64-byte frame `4, 0, ..., 0`.  The transfers after it are 10000
times the write of the frame `3, 0, ..., 0` on endpoint 0x01 with timeout 0 followed
by a read of 64 bytes on endpoint 0x81 with timeout 1000; the prime frame is not
sent again. -/
theorem C10_command_frames (env : Env) (ot : output_type) (st : State) :
    ∃ rest : List Event,
      (main_session env ot st).trace =
        st.trace ++ Event.bulk_transfer 0x1 (some (fun j => if j = 0 then 4 else 0)) 64 0 :: rest
      ∧ bulk_transfers rest =
          (List.replicate 10000
            [Event.bulk_transfer 0x1 (some (fun j => if j = 0 then 3 else 0)) 64 0,
             Event.bulk_transfer 0x81 none 64 1000]).flatten
      ∧ Event.bulk_transfer 0x1 (some (fun j => if j = 0 then 4 else 0)) 64 0 ∉ rest
      ∧ ENDPOINT_DOWN = 0x1 ∧ ENDPOINT_UP = 0x81 := by
  rw [main_session_eq]
  obtain ⟨outs, hlen, hfree, htrace, -, -⟩ := poll_loop_blocks env ot
    { r := st.r,
      actual_length := (env st.calls).actual_length,
      dataUp := st.dataUp,
      dataDown := fun j => if j = 0 then 3 else 0,
      calls := st.calls + 1,
      trace := st.trace ++
        [Event.bulk_transfer 0x1 (some (fun j => if j = 0 then 4 else 0)) 64 0] } 10000
  have hb := bulk_transfers_blocks
    (Event.bulk_transfer 0x1 (some (fun j => if j = 0 then 3 else 0)) 64 0)
    (Event.bulk_transfer 0x81 none 64 1000) rfl rfl outs hfree
  rw [hlen] at hb
  refine ⟨_, ?_, hb, ?_, rfl, rfl⟩
  · rw [htrace]
    simp [List.append_assoc]
  · intro hmem
    have hin : Event.bulk_transfer 0x1 (some (fun j : Fin 64 => if j = 0 then (4 : Byte) else 0))
        64 0 ∈ bulk_transfers (outs.map (fun out =>
          [Event.bulk_transfer 0x1 (some (fun j => if j = 0 then 3 else 0)) 64 0,
           Event.bulk_transfer 0x81 none 64 1000] ++ out)).flatten := by
      unfold bulk_transfers
      exact List.mem_filter.2 ⟨hmem, rfl⟩
    rw [hb] at hin
    obtain ⟨l, hl, hel⟩ := List.mem_flatten.1 hin
    rw [List.eq_of_mem_replicate hl] at hel
    simp only [List.mem_cons, Event.bulk_transfer.injEq, Option.some.injEq, List.mem_singleton,
      reduceCtorEq, List.not_mem_nil, false_and, and_false, or_false] at hel
    have h0 := congrFun hel.2.1 0
    simp at h0

end TL500
